import Mathlib

/-!
Verification of the `optionsgo` library: a Go implementation of Rust-style
`Option`/`Result` containers.

The embedding mirrors the Go source representation directly:

* Go's `option[T]` struct holds a nullable pointer `value *T`; the field is
  modelled as `Option T`, with `Option.none` playing the nil pointer.
* Go's `result[T]` struct holds `value *T` and `err error`; the Go `error`
  interface value is likewise modelled as `Option E` (`Option.none` = nil
  error).
* A Go `panic` is modelled by `Except String`: `Except.error msg` is a panic
  carrying `msg`. Dereferencing a nil pointer panics with the Go runtime
  message, kept in `_NIL_DEREF`. Operations whose variant guards make every
  pointer dereference safe are total and stay outside `Except`.
* `Equal` uses `reflect`: `reflect.TypeOf` is a parameter `typeOf` returning
  `Option ReflectType` (`Option.none` models the nil `reflect.Type` obtained
  from a nil interface value), `reflect.DeepEqual` is a parameter `deepEqual`,
  and Go pointer identity `o == other` is a parameter `ptrEq`.
-/

set_option autoImplicit false

namespace optionsgo

/-- Go runtime panic message for a nil pointer dereference. -/
def _NIL_DEREF : String := "runtime error: invalid memory address or nil pointer dereference"

/-- `internal/option_impl.go`: `const _FAILED_UNWRAP = "failed to unwrap None value"`. -/
def _FAILED_UNWRAP : String := "failed to unwrap None value"

/-- `internal/option_impl.go`: `type option[T any] struct { value *T }`.
The nullable pointer field is an `Option T`. -/
structure option (T : Type) where
  value : Option T
deriving DecidableEq

/-- `internal/option_chain_impl.go`: `type result[T any] struct { value *T; err error }`.
Both nullable slots are `Option`s; `err = Option.none` is Go's nil error. -/
structure result (T E : Type) where
  value : Option T
  err : Option E
deriving DecidableEq

/-- The result of `reflect.TypeOf` when non-nil: all the embedding needs of a
`reflect.Type` is whether `Comparable()` holds. -/
structure ReflectType where
  comparable : Bool
deriving DecidableEq

/-- `internal/option_impl.go` `Some`: always produces the Some variant. -/
def Some {T : Type} (val : T) : option T :=
  { value := Option.some val }

/-- `internal/option_impl.go` `None`: always produces the None variant. -/
def None {T : Type} : option T :=
  { value := Option.none }

/-- `internal/option_chain_impl.go` `Ok`: `&result{value: &value, err: nil}`. -/
def Ok {T E : Type} (value : T) : result T E :=
  { value := Option.some value, err := Option.none }

/-- `internal/option_chain_impl.go` `Err`: `&result{value: nil, err: err}`.
The argument is a Go error interface value, hence `Option E`. -/
def Err {T E : Type} (err : Option E) : result T E :=
  { value := Option.none, err := err }

/-- `internal/option_chain_impl.go` `ResultFromReturn`: if `err != nil` return
`Err[T](err)`; otherwise `&result{value: &value, err: nil}`. -/
def ResultFromReturn {T E : Type} (value : T) (err : Option E) : result T E :=
  match err with
  | Option.some e => Err (Option.some e)
  | Option.none => { value := Option.some value, err := Option.none }

namespace option

/-- `IsSome`: `o.value != nil`. -/
def IsSome {T : Type} (o : option T) : Bool :=
  o.value.isSome

/-- `IsNone`: `o.value == nil`. -/
def IsNone {T : Type} (o : option T) : Bool :=
  o.value.isNone

/-- `Expect(msg)`: panic with `msg` if the value slot is nil, else dereference it. -/
def Expect {T : Type} (o : option T) (msg : String) : Except String T :=
  match o.value with
  | Option.none => Except.error msg
  | Option.some v => Except.ok v

/-- `Unwrap`: `o.Expect(_FAILED_UNWRAP)`. -/
def Unwrap {T : Type} (o : option T) : Except String T :=
  o.Expect _FAILED_UNWRAP

/-- `And(other)`: `if o.IsNone() { return other }; return o`. -/
def And {T : Type} (o other : option T) : option T :=
  if o.IsNone then other else o

/-- `Or(optb)`: `if o.IsNone() { return optb }; return o`. -/
def Or {T : Type} (o optb : option T) : option T :=
  if o.IsNone then optb else o

/-- `Reduce(optb, fn)`: `if o.IsNone() { return optb }; if optb.IsSome() { return
Some(fn(o.Unwrap(), optb.Unwrap())) }; return o`. Both `Unwrap` calls sit under
variant guards, so they are resolved by the pattern match. -/
def Reduce {T : Type} (o optb : option T) (fn : T → T → T) : option T :=
  match o.value with
  | Option.none => optb
  | Option.some a =>
    match optb.value with
    | Option.some b => Some (fn a b)
    | Option.none => o

/-- `XOr(optb)`: nested `IsSome` tests exactly as in the source. -/
def XOr {T : Type} (o optb : option T) : option T :=
  if o.IsSome then
    if optb.IsSome then None else o
  else
    if optb.IsSome then optb else None

/-- `Equal(other)`:
`if o.IsNone() && other.IsNone() || (o == other) { return true }` —
`o == other` is Go pointer identity, the parameter `ptrEq`;
`if o.IsSome() && other.IsSome() { ... reflect.TypeOf(oValue).Comparable() ... }` —
when `oValue` is a nil interface value, `reflect.TypeOf` returns nil
(`Option.none` here) and calling `Comparable()` on it panics with the nil
pointer dereference runtime error; `return false` otherwise. -/
def Equal {T : Type} (typeOf : T → Option ReflectType) (deepEqual : T → T → Bool)
    (ptrEq : Bool) (o other : option T) : Except String Bool :=
  if (o.IsNone && other.IsNone) || ptrEq then
    Except.ok true
  else if o.IsSome && other.IsSome then
    match o.value, other.value with
    | Option.some oValue, Option.some otherValue =>
      match typeOf oValue with
      | Option.none => Except.error _NIL_DEREF
      | Option.some t =>
        if t.comparable then Except.ok (deepEqual oValue otherValue)
        else Except.ok false
    | _, _ => Except.ok false
  else
    Except.ok false

end option

namespace result

/-- `IsOk`: `r.value != nil`. -/
def IsOk {T E : Type} (r : result T E) : Bool :=
  r.value.isSome

/-- `IsError`: `r.err != nil`. -/
def IsError {T E : Type} (r : result T E) : Bool :=
  r.err.isSome

/-- `Expect(msg)`: `if r.IsError() { panic(msg) }; return *r.value` — the
dereference panics with the runtime nil pointer message if the value slot is
also nil. -/
def Expect {T E : Type} (r : result T E) (msg : String) : Except String T :=
  if r.IsError then Except.error msg
  else
    match r.value with
    | Option.some v => Except.ok v
    | Option.none => Except.error _NIL_DEREF

/-- `ExpectErr(msg)`: `if r.IsOk() { panic(msg) }; return r.err`. -/
def ExpectErr {T E : Type} (r : result T E) (msg : String) : Except String (Option E) :=
  if r.IsOk then Except.error msg else Except.ok r.err

/-- `Unwrap`: `r.Expect("cannot unwrap Err result to value")`. -/
def Unwrap {T E : Type} (r : result T E) : Except String T :=
  r.Expect "cannot unwrap Err result to value"

/-- `UnwrapErr`: `r.ExpectErr("cannot unwrap Ok result to error")`. -/
def UnwrapErr {T E : Type} (r : result T E) : Except String (Option E) :=
  r.ExpectErr "cannot unwrap Ok result to error"

end result

/-- `internal/option_chain_impl.go` `OptionMapOr`: `if option.IsSome() { return
fn(option.Unwrap()) }; return or` — returns the raw `V`, not a container; the
`Unwrap` is guarded by `IsSome`, so the match resolves it. -/
def OptionMapOr {T V : Type} (o : option T) (fn : T → V) (or : V) : V :=
  match o.value with
  | Option.some v => fn v
  | Option.none => or

/-- `internal` `ResultMapOr` (ResultMap chain file): `if result.IsOk() { return
Ok(fn(result.Unwrap())) }; return Ok(or)`. `Unwrap` checks `IsError`, not
`IsOk`, so its panic paths are kept via `Except`. -/
def ResultMapOr {T V E : Type} (r : result T E) (fn : T → V) (or : V) :
    Except String (result V E) :=
  if r.IsOk then
    match r.Unwrap with
    | Except.error m => Except.error m
    | Except.ok v => Except.ok (Ok (fn v))
  else
    Except.ok (Ok or)

/-- `extension/option.go` `OptionTranspose`:
`if option.IsNone() { return Ok(None) }`;
`result := option.Unwrap()` (guarded, resolved by the match);
`if result.IsError() { return Err(result.UnwrapErr()) }`;
`return Ok(Some(result.Unwrap()))` — both inner extractions can panic on
ill-formed results, so the panic paths are kept via `Except`. -/
def OptionTranspose {T E : Type} (o : option (result T E)) :
    Except String (result (option T) E) :=
  match o.value with
  | Option.none => Except.ok (Ok None)
  | Option.some r =>
    if r.IsError then
      match r.UnwrapErr with
      | Except.error m => Except.error m
      | Except.ok e => Except.ok (Err e)
    else
      match r.Unwrap with
      | Except.error m => Except.error m
      | Except.ok v => Except.ok (Ok (Some v))

/-- Modelled from the spec: the source of `ResultTranspose` is not under the
repository sources (only its test and a README table row are). The spec
defines it as the inverse of `OptionTranspose` on the three well-formed
shapes: `Ok(None) → None`, `Ok(Some(v)) → Some(Ok(v))`, `Err(e) → Some(Err(e))`.
The ill-formed shape with both slots empty, which the spec leaves undefined,
is mapped to `None`. -/
def ResultTranspose {T E : Type} (r : result (option T) E) : option (result T E) :=
  match r.err with
  | Option.some e => Some (Err (Option.some e))
  | Option.none =>
    match r.value with
    | Option.some o =>
      match o.value with
      | Option.some v => Some (Ok v)
      | Option.none => None
    | Option.none => None

end optionsgo

open optionsgo

/-- Claim C1, counterexample: `Err` called with a nil error produces a Result
for which neither `IsOk` nor `IsError` returns true, so the "exactly one slot
populated, never neither" invariant fails for `Err(nil)`. -/
theorem C1_err_nil_counterexample :
    ¬ (((Err (Option.none : Option String) : result Nat String).IsOk = true)
       ∨ ((Err (Option.none : Option String) : result Nat String).IsError = true)) := by
  decide

/-- Claim C1 (amended): every Result built by `Ok`, by `Err` with a non-nil
error, or by `ResultFromReturn` satisfies exactly one of `IsOk`/`IsError`;
`Err` with a nil error yields a Result satisfying neither. -/
theorem C1_exactly_one_payload (T E : Type) (v : T) (e : E) :
    ((Ok v : result T E).IsOk = true ∧ (Ok v : result T E).IsError = false)
  ∧ ((Err (Option.some e) : result T E).IsOk = false
      ∧ (Err (Option.some e) : result T E).IsError = true)
  ∧ ((ResultFromReturn v (Option.none : Option E)).IsOk = true
      ∧ (ResultFromReturn v (Option.none : Option E)).IsError = false)
  ∧ ((ResultFromReturn v (Option.some e)).IsOk = false
      ∧ (ResultFromReturn v (Option.some e)).IsError = true)
  ∧ ((Err (Option.none : Option E) : result T E).IsOk = false
      ∧ (Err (Option.none : Option E) : result T E).IsError = false) :=
  ⟨⟨rfl, rfl⟩, ⟨rfl, rfl⟩, ⟨rfl, rfl⟩, ⟨rfl, rfl⟩, ⟨rfl, rfl⟩⟩

/-- Claim C2: `OptionTranspose` and `ResultTranspose` are exact inverses on the
three well-formed shapes, with the variant mapping None ↔ Ok(None),
Some(Ok(v)) ↔ Ok(Some(v)), Some(Err(e)) ↔ Err(e); no composition panics. -/
theorem C2_transpose_round_trip (T E : Type) (v : T) (e : E) :
    Except.map ResultTranspose (OptionTranspose (None : option (result T E)))
      = Except.ok None
  ∧ Except.map ResultTranspose (OptionTranspose (Some (Ok v : result T E)))
      = Except.ok (Some (Ok v))
  ∧ Except.map ResultTranspose (OptionTranspose (Some (Err (Option.some e) : result T E)))
      = Except.ok (Some (Err (Option.some e)))
  ∧ OptionTranspose (ResultTranspose (Ok None : result (option T) E))
      = Except.ok (Ok None)
  ∧ OptionTranspose (ResultTranspose (Ok (Some v) : result (option T) E))
      = Except.ok (Ok (Some v))
  ∧ OptionTranspose (ResultTranspose (Err (Option.some e) : result (option T) E))
      = Except.ok (Err (Option.some e)) :=
  ⟨rfl, rfl, rfl, rfl, rfl, rfl⟩

/-- Claim C3, counterexample: at a = None, b = Some 0 the code returns the
Some (a "truthy" output) while boolean AND of the corresponding truth values
(None falsy) is false, so `And` does not mirror boolean AND short-circuiting. -/
theorem C3_and_not_boolean_and_counterexample :
    ((None : option Nat).And (Some 0) = Some 0)
  ∧ (((None : option Nat).IsSome && (Some 0 : option Nat).IsSome) = false) := by
  decide

/-- Claim C3 (amended): `a.And(b)` returns `b` if `a` is None and returns `a`
if `a` is Some; this mirrors boolean OR short-circuiting with None as the
falsy side (the Some-ness of the output is the OR of the inputs), not AND. -/
theorem C3_and_behaviour (T : Type) (v : T) (a b : option T) :
    (None : option T).And b = b
  ∧ (Some v).And b = Some v
  ∧ (a.And b).IsSome = (a.IsSome || b.IsSome) := by
  refine ⟨rfl, rfl, ?_⟩
  rcases a with ⟨_ | av⟩ <;>
    simp [optionsgo.option.And, optionsgo.option.IsNone, optionsgo.option.IsSome]

/-- Claim C4: `And` and `Or` are extensionally (here even definitionally)
equal — both return the other operand when the receiver is None and the
receiver when it is Some — so `And` is not a boolean-AND analogue. -/
theorem C4_and_or_extensionally_equal (T : Type) (v : T) (a b : option T) :
    a.And b = a.Or b
  ∧ (None : option T).And b = b
  ∧ (Some v).And b = Some v :=
  ⟨rfl, rfl, rfl⟩

/-- Claim C5, counterexample: two distinct Some options wrapping a nil
interface value (modelled by `typeOf` returning the nil `reflect.Type`) make
`Equal` panic with the nil pointer dereference runtime error instead of
returning a boolean, so `Equal` is not total. -/
theorem C5_equal_nil_interface_counterexample :
    optionsgo.option.Equal (fun _ : Unit => (Option.none : Option ReflectType))
      (fun _ _ => true) false (Some ()) (Some ()) = Except.error _NIL_DEREF :=
  rfl

/-- Claim C5 (amended): `Equal` returns a boolean for every pair of options
whenever `reflect.TypeOf` of the contained value is non-nil (in particular for
every non-interface element type); it can only panic when both options are
Some, they are distinct instances, and the receiver's value is a nil
interface value. -/
theorem C5_equal_total_on_non_nil_types (T : Type) (typeOf : T → ReflectType)
    (deepEqual : T → T → Bool) (ptrEq : Bool) (o other : option T) :
    ∃ b : Bool, optionsgo.option.Equal (fun v => Option.some (typeOf v))
      deepEqual ptrEq o other = Except.ok b := by
  unfold optionsgo.option.Equal
  rcases o with ⟨_ | ov⟩ <;> rcases other with ⟨_ | otv⟩ <;> cases ptrEq <;>
    first
    | exact ⟨_, rfl⟩
    | cases hc : (typeOf ov).comparable <;>
        simp [optionsgo.option.IsNone, optionsgo.option.IsSome, hc]

/-- Claim C6: `Unwrap` on None panics with the Option-specific fixed default
message, `Unwrap` on `Err(e)` (e non-nil) panics with the Result-specific
fixed default message, and the two default messages are distinct text. -/
theorem C6_unwrap_default_messages (E : Type) (e : E) :
    (None : option String).Unwrap = Except.error _FAILED_UNWRAP
  ∧ _FAILED_UNWRAP = "failed to unwrap None value"
  ∧ (Err (Option.some e) : result String E).Unwrap
      = Except.error "cannot unwrap Err result to value"
  ∧ _FAILED_UNWRAP ≠ "cannot unwrap Err result to value" := by
  refine ⟨rfl, rfl, rfl, by decide⟩

/-- Claim C7: `ResultFromReturn(v, err)` yields `Err(err)` whenever `err` is
non-nil, discarding `v`, and yields `Ok(v)` (satisfying `IsOk`) whenever
`err` is nil, for every `v` including zero values. -/
theorem C7_result_from_return (T E : Type) (v : T) (e : E) :
    ResultFromReturn v (Option.some e) = (Err (Option.some e) : result T E)
  ∧ ResultFromReturn v (Option.none : Option E) = Ok v
  ∧ (ResultFromReturn v (Option.none : Option E)).IsOk = true
  ∧ (ResultFromReturn v (Option.some e)).IsOk = false :=
  ⟨rfl, rfl, rfl, rfl⟩

/-- Claim C8: Result's MapOr re-wraps both the mapped value and the default in
the Ok variant, while Option's MapOr returns the mapped value or the default
raw (its result type is the plain `V`, not a container). -/
theorem C8_mapor_asymmetry (T V E : Type) (v : T) (e : E) (fn : T → V) (d : V) :
    ResultMapOr (Ok v : result T E) fn d = Except.ok (Ok (fn v))
  ∧ ResultMapOr (Err (Option.some e) : result T E) fn d = Except.ok (Ok d)
  ∧ OptionMapOr (Some v) fn d = fn v
  ∧ OptionMapOr (None : option T) fn d = d :=
  ⟨rfl, rfl, rfl, rfl⟩

/-- Claim C9: `Reduce` combines two Somes with `fn`, returns the single Some
unchanged when exactly one side is Some, and returns None when both are None. -/
theorem C9_reduce (T : Type) (a b : T) (ob : option T) (fn : T → T → T) :
    (Some a).Reduce (Some b) fn = Some (fn a b)
  ∧ (Some a).Reduce (None : option T) fn = Some a
  ∧ (None : option T).Reduce ob fn = ob
  ∧ (None : option T).Reduce (None : option T) fn = (None : option T) :=
  ⟨rfl, rfl, rfl, rfl⟩

/-- Claim C10: `XOr` satisfies the four-row truth table: Some/Some → None,
Some/None → the left Some, None/Some → the right Some, None/None → None. -/
theorem C10_xor_truth_table (T : Type) (a b : T) :
    (Some a).XOr (Some b) = (None : option T)
  ∧ (Some a).XOr (None : option T) = Some a
  ∧ (None : option T).XOr (Some b) = Some b
  ∧ (None : option T).XOr (None : option T) = (None : option T) :=
  ⟨rfl, rfl, rfl, rfl⟩
